import Mathlib

/-!
Shallow embedding of the feed-to-record transformer of `src/rss.py`
(`parse_rss_feed_data`), together with models of the two helpers it
imports from `src/utils.py` (`safe_get`, `unpack_singleton_list`),
which are described by the specification but whose source file is not
part of the sources.

Semi-structured values produced by `xmltodict.parse` are embedded as a
JSON-like tree `JsonVal` (Python `None` becomes `JsonVal.null`,
strings become `JsonVal.str`, lists `JsonVal.list`, dicts
`JsonVal.obj` as association lists in insertion order).  Python
operations that can raise are embedded as `Except PyErr`; iterating a
dict yields its keys, iterating a string yields its characters, and
iterating `None` raises `TypeError`, exactly as in CPython.
-/

namespace EdgarRss

/-- JSON-like tree of values, as produced by `xmltodict.parse`:
`null` is Python `None`, `obj` is a dict as an association list in
insertion order. -/
inductive JsonVal where
  | null : JsonVal
  | str : String → JsonVal
  | list : List JsonVal → JsonVal
  | obj : List (String × JsonVal) → JsonVal

/-- Python runtime errors that the embedded code can raise. -/
inductive PyErr where
  | typeError : PyErr
  | attributeError : PyErr
  | keyError : PyErr
deriving DecidableEq

/-- First-match lookup in an association list (Python dict lookup;
dict keys are unique, so first match is the only match). -/
def dictGet {α : Type} : List (String × α) → String → Option α
  | [], _ => none
  | (k, v) :: rest, key => if k = key then some v else dictGet rest key

/-- Modelled from the spec: `safe_get` from `src/utils.py` is imported
by `src/rss.py` but its source file is not among the sources.  The
spec (§4.2 step 6, §9) describes it as a safe nested key-path lookup
over a tree of mappings in which any missing intermediate key (or a
non-mapping intermediate value) yields a null/absent result instead of
raising. -/
def safe_get : JsonVal → List String → JsonVal
  | v, [] => v
  | JsonVal.obj fs, k :: ks =>
      match dictGet fs k with
      | some v => safe_get v ks
      | none => JsonVal.null
  | _, _ :: _ => JsonVal.null

/-- Python `d[k]` on a dict: `KeyError` when missing; indexing a
non-dict with a string key is a `TypeError`. -/
def pyIndex : JsonVal → String → Except PyErr JsonVal
  | JsonVal.obj fs, k =>
      match dictGet fs k with
      | some v => Except.ok v
      | none => Except.error PyErr.keyError
  | _, _ => Except.error PyErr.keyError

/-- Python `d.get(k)` on a dict (missing key gives `None`); calling
`.get` on a non-dict raises `AttributeError`. -/
def pyGet : JsonVal → String → Except PyErr JsonVal
  | JsonVal.obj fs, k => Except.ok ((dictGet fs k).getD JsonVal.null)
  | _, _ => Except.error PyErr.attributeError

/-- Python iteration `for x in v`: a list yields its elements, a dict
yields its keys (as strings), a string yields its characters as
one-character strings, and anything else (in particular `None`)
raises `TypeError`. -/
def pyIter : JsonVal → Except PyErr (List JsonVal)
  | JsonVal.list xs => Except.ok xs
  | JsonVal.obj fs => Except.ok (fs.map (fun p => JsonVal.str p.1))
  | JsonVal.str s => Except.ok (s.toList.map (fun c => JsonVal.str (String.mk [c])))
  | _ => Except.error PyErr.typeError

/-- `UNKNOWN_TICKER_PLACEHOLDER` from `src/rss.py` line 18. -/
def UNKNOWN_TICKER_PLACEHOLDER : String := "UNKNOWN"

/-- Python `cik.lstrip("0")`: remove every leading `'0'` character. -/
def lstripZeros (s : String) : String :=
  String.mk (s.toList.dropWhile (fun c => c = '0'))

/-- `cik` of an item (`src/rss.py` line 84):
`safe_get(i, "edgar:xbrlFiling", "edgar:cikNumber")`. -/
def cikOf (entry : JsonVal) : JsonVal :=
  safe_get entry ["edgar:xbrlFiling", "edgar:cikNumber"]

/-- `trimmed_cik` of an item (`src/rss.py` line 88):
`cik.lstrip("0") if isinstance(cik, str) else None`. -/
def trimmedCikOf (entry : JsonVal) : Option String :=
  match cikOf entry with
  | JsonVal.str s => some (lstripZeros s)
  | _ => none

/-- `tickers_mapping.get(trimmed_cik, [])` (`src/rss.py` line 91);
a `None` key is never present in the string-keyed mapping. -/
def matchingTickers (mapping : List (String × List String))
    (trimmed : Option String) : List String :=
  match trimmed with
  | none => []
  | some k => (dictGet mapping k).getD []

/-- `matching_tickers_for_item_cik` for an item. -/
def matchingOf (mapping : List (String × List String)) (entry : JsonVal) :
    List String :=
  matchingTickers mapping (trimmedCikOf entry)

/-- `next((t for t in tickers if t in matching), None)`
(`src/rss.py` lines 94-96): the first element of `tickers`, in
filter-list order, that is a member of `matching`. -/
def firstIn : List String → List String → Option String
  | [], _ => none
  | t :: ts, matching => if t ∈ matching then some t else firstIn ts matching

/-- `matched_ticker_str` after both assignments (`src/rss.py` lines
94-104).  Python's `or` chain is by truthiness: `None` and the empty
string are both falsy, so a `None` (or empty) first match falls
through to `"/".join(matching_tickers_for_item_cik)`, and an empty
join falls through to `UNKNOWN_TICKER_PLACEHOLDER`. -/
def matchedTickerStr (tickers matching : List String) : String :=
  let found := (firstIn tickers matching).getD ""
  let joined := if found = "" then String.intercalate "/" matching else found
  if joined = "" then UNKNOWN_TICKER_PLACEHOLDER else joined

/-- `matched_ticker_str` for an item. -/
def matchedOf (tickers : List String) (mapping : List (String × List String))
    (entry : JsonVal) : String :=
  matchedTickerStr tickers (matchingOf mapping entry)

/-- The filtering decision of `src/rss.py` lines 108-125: with a
non-empty filter list, skip (`continue`) when the matching-ticker list
is empty, when the matched ticker string equals the UNKNOWN
placeholder, or when it is not one of the requested tickers; with an
empty filter list, never skip. -/
def shouldSkip (tickers matching : List String) (matched : String) : Bool :=
  if tickers = [] then false
  else if matching = [] then true
  else if matched = UNKNOWN_TICKER_PLACEHOLDER then true
  else if matched ∈ tickers then false
  else true

/-- The `parsed_line` dict built at `src/rss.py` lines 128-152, plus
the `xbrl_files` key added at line 160. -/
structure ParsedLine where
  company_name : JsonVal
  cik : JsonVal
  trimmed_cik : Option String
  ticker : String
  published_date : JsonVal
  title : JsonVal
  link : JsonVal
  description : JsonVal
  form : JsonVal
  filing_date : JsonVal
  file_number : JsonVal
  accession_number : JsonVal
  acceptance_date : JsonVal
  period : JsonVal
  assistant_director : JsonVal
  assigned_sic : JsonVal
  fiscal_year_end : JsonVal
  xbrl_files : JsonVal

/-- `parsed_line` construction (`src/rss.py` lines 128-152).  The
`safe_get` fields never raise; the four direct `i.get(...)` calls
raise `AttributeError` when the item is not a dict, so construction
succeeds exactly when the item is a dict.  `xbrl_files` is filled in
afterwards, as in the source. -/
def buildParsedLine (entry : JsonVal) (cik : JsonVal) (trimmed : Option String)
    (matched : String) : Except PyErr ParsedLine :=
  match entry with
  | JsonVal.obj fs =>
      Except.ok
        { company_name := safe_get (JsonVal.obj fs) ["edgar:xbrlFiling", "edgar:companyName"]
          cik := cik
          trimmed_cik := trimmed
          ticker := matched
          published_date := (dictGet fs "pubDate").getD JsonVal.null
          title := (dictGet fs "title").getD JsonVal.null
          link := (dictGet fs "link").getD JsonVal.null
          description := (dictGet fs "description").getD JsonVal.null
          form := safe_get (JsonVal.obj fs) ["edgar:xbrlFiling", "edgar:formType"]
          filing_date := safe_get (JsonVal.obj fs) ["edgar:xbrlFiling", "edgar:filingDate"]
          file_number := safe_get (JsonVal.obj fs) ["edgar:xbrlFiling", "edgar:fileNumber"]
          accession_number := safe_get (JsonVal.obj fs) ["edgar:xbrlFiling", "edgar:accessionNumber"]
          acceptance_date := safe_get (JsonVal.obj fs) ["edgar:xbrlFiling", "edgar:acceptanceDatetime"]
          period := safe_get (JsonVal.obj fs) ["edgar:xbrlFiling", "edgar:period"]
          assistant_director := safe_get (JsonVal.obj fs) ["edgar:xbrlFiling", "edgar:assistantDirector"]
          assigned_sic := safe_get (JsonVal.obj fs) ["edgar:xbrlFiling", "edgar:assignedSic"]
          fiscal_year_end := safe_get (JsonVal.obj fs) ["edgar:xbrlFiling", "edgar:fiscalYearEnd"]
          xbrl_files := JsonVal.null }
  | _ => Except.error PyErr.attributeError

/-- The list comprehension `[f.get("@edgar:url") for f in files_urls]`
(once the iterable has been materialised): each element must be a dict
or `AttributeError` is raised. -/
def urlsOf : List JsonVal → Except PyErr (List JsonVal)
  | [] => Except.ok []
  | f :: fs =>
      match pyGet f "@edgar:url" with
      | Except.error e => Except.error e
      | Except.ok u =>
          match urlsOf fs with
          | Except.error e => Except.error e
          | Except.ok us => Except.ok (u :: us)

/-- Every element is a string; returns the strings. -/
def allStrings : List JsonVal → Option (List String)
  | [] => some []
  | JsonVal.str s :: rest => (allStrings rest).map (fun ss => s :: ss)
  | _ => none

/-- Modelled from the spec: `unpack_singleton_list` from
`src/utils.py` is imported by `src/rss.py` but its source file is not
among the sources.  The spec (§4.2 step 7) says: if the list of URL
strings has exactly one element, collapse it to that single value (not
a one-element list), otherwise join into a newline-separated string
(joining non-strings is a `TypeError`, as for Python's `str.join`). -/
def unpackSingletonList : List JsonVal → Except PyErr JsonVal
  | [x] => Except.ok x
  | xs =>
      match allStrings xs with
      | some ss => Except.ok (JsonVal.str (String.intercalate "\n" ss))
      | none => Except.error PyErr.typeError

/-- The files-URLs processing of `src/rss.py` lines 154-160: read the
nested file list with `safe_get`; when `files_urls_as_text` is set,
iterate over it (a `TypeError` when the safe lookup produced `None`),
extract each `@edgar:url`, and unpack/join; otherwise keep the raw
value. -/
def xbrlFilesField (entry : JsonVal) (files_urls_as_text : Bool) :
    Except PyErr JsonVal :=
  let fu := safe_get entry ["edgar:xbrlFiling", "edgar:xbrlFiles", "edgar:xbrlFile"]
  if files_urls_as_text then
    match pyIter fu with
    | Except.error e => Except.error e
    | Except.ok elems =>
        match urlsOf elems with
        | Except.error e => Except.error e
        | Except.ok urls => unpackSingletonList urls
  else Except.ok fu

/-- One loop iteration of `parse_rss_feed_data` (`src/rss.py` lines
82-162) for a single item: `Except.ok none` means the item was skipped
by a `continue`, `Except.ok (some line)` means the item was yielded,
`Except.error e` means the iteration raised. -/
def processEntry (entry : JsonVal) (tickers : List String)
    (mapping : List (String × List String)) (files_urls_as_text : Bool) :
    Except PyErr (Option ParsedLine) :=
  if shouldSkip tickers (matchingOf mapping entry) (matchedOf tickers mapping entry) then
    Except.ok none
  else
    match buildParsedLine entry (cikOf entry) (trimmedCikOf entry)
        (matchedOf tickers mapping entry) with
    | Except.error e => Except.error e
    | Except.ok line =>
        match xbrlFilesField entry files_urls_as_text with
        | Except.error e => Except.error e
        | Except.ok xf => Except.ok (some { line with xbrl_files := xf })

/-- The record yielded for an item, when one is yielded. -/
def emitOf (tickers : List String) (mapping : List (String × List String))
    (files_urls_as_text : Bool) (entry : JsonVal) : Option ParsedLine :=
  match processEntry entry tickers mapping files_urls_as_text with
  | Except.ok (some r) => some r
  | _ => none

/-- The whole `for` loop over the materialised items: the list of
records yielded so far, and the error that stopped the generator, if
any (a generator raising mid-iteration has already yielded the earlier
records). -/
def parseEntries (es : List JsonVal) (tickers : List String)
    (mapping : List (String × List String)) (files_urls_as_text : Bool) :
    List ParsedLine × Option PyErr :=
  match es with
  | [] => ([], none)
  | e :: rest =>
      match processEntry e tickers mapping files_urls_as_text with
      | Except.error er => ([], some er)
      | Except.ok none => parseEntries rest tickers mapping files_urls_as_text
      | Except.ok (some r) =>
          let tail := parseEntries rest tickers mapping files_urls_as_text
          (r :: tail.1, tail.2)

/-- `xmltodict.parse(response.content)["rss"]["channel"]["item"]`
(`src/rss.py` line 81) followed by materialising the `for` iteration:
a fatal top-level error when the path is missing or the item value is
not iterable. -/
def itemsResult (doc : JsonVal) : Except PyErr (List JsonVal) :=
  match pyIndex doc "rss" with
  | Except.error e => Except.error e
  | Except.ok rss =>
      match pyIndex rss "channel" with
      | Except.error e => Except.error e
      | Except.ok ch =>
          match pyIndex ch "item" with
          | Except.error e => Except.error e
          | Except.ok items => pyIter items

/-- The entries the loop iterates over; empty on a top-level failure. -/
def entriesOf (doc : JsonVal) : List JsonVal :=
  match itemsResult doc with
  | Except.error _ => []
  | Except.ok es => es

/-- `parse_rss_feed_data` (`src/rss.py` lines 62-162) on an already
XML-parsed document: extract `["rss"]["channel"]["item"]` (a fatal
top-level error when missing), then run the loop.  Returns the yielded
records in order and the error that stopped the generator, if any. -/
def parse_rss_feed_data (doc : JsonVal) (tickers : List String)
    (mapping : List (String × List String)) (files_urls_as_text : Bool) :
    List ParsedLine × Option PyErr :=
  match itemsResult doc with
  | Except.error e => ([], some e)
  | Except.ok es => parseEntries es tickers mapping files_urls_as_text

/-- Whether a loop iteration yielded a record. -/
def isEmitted : Except PyErr (Option ParsedLine) → Bool
  | Except.ok (some _) => true
  | _ => false

/-- The `ticker` field of the yielded record, when one was yielded. -/
def tickerOfResult : Except PyErr (Option ParsedLine) → Option String
  | Except.ok (some r) => some r.ticker
  | _ => none

/-- A file descriptor `<edgar:xbrlFile @edgar:url=u .../>`. -/
def mkXbrlFile (u : String) : JsonVal :=
  JsonVal.obj [("@edgar:url", JsonVal.str u)]

/-- An item whose filing carries only a CIK number. -/
def itemWithCik (cik : String) : JsonVal :=
  JsonVal.obj [("edgar:xbrlFiling", JsonVal.obj [("edgar:cikNumber", JsonVal.str cik)])]

/-- An item whose filing carries a CIK number and a file list. -/
def itemWithFiles (cik : String) (descs : List JsonVal) : JsonVal :=
  JsonVal.obj
    [("edgar:xbrlFiling",
      JsonVal.obj
        [("edgar:cikNumber", JsonVal.str cik),
         ("edgar:xbrlFiles", JsonVal.obj [("edgar:xbrlFile", JsonVal.list descs)])])]

/-- A feed document whose `rss.channel.item` holds the given value. -/
def docWithItem (item : JsonVal) : JsonVal :=
  JsonVal.obj [("rss", JsonVal.obj [("channel", JsonVal.obj [("item", item)])])]

/-! ## Helper lemmas -/

theorem firstIn_nil_right (tickers : List String) : firstIn tickers [] = none := by
  induction tickers with
  | nil => rfl
  | cons t ts ih => simp [firstIn, ih]

theorem matchedTickerStr_nil (tickers : List String) :
    matchedTickerStr tickers [] = UNKNOWN_TICKER_PLACEHOLDER := by
  simp [matchedTickerStr, firstIn_nil_right, String.intercalate]

theorem firstIn_mem {tickers matching : List String} {t : String}
    (h : firstIn tickers matching = some t) : t ∈ tickers ∧ t ∈ matching := by
  induction tickers with
  | nil => simp [firstIn] at h
  | cons a ts ih =>
      by_cases ha : a ∈ matching
      · simp [firstIn, ha] at h
        subst h
        exact ⟨List.mem_cons_self a ts, ha⟩
      · simp [firstIn, ha] at h
        exact ⟨List.mem_cons_of_mem a (ih h).1, (ih h).2⟩

theorem firstIn_singleton_of_mem {tickers : List String} {u : String}
    (h : u ∈ tickers) : firstIn tickers [u] = some u := by
  induction tickers with
  | nil => cases h
  | cons a ts ih =>
      by_cases ha : a = u
      · subst ha; simp [firstIn]
      · have hts : u ∈ ts := by
          rcases List.mem_cons.mp h with h1 | h2
          · exact absurd h1.symm ha
          · exact h2
        have hma : ¬ a ∈ ([u] : List String) := by simp [ha]
        simp [firstIn, hma, ih hts]

theorem matchedTickerStr_of_firstIn {tickers matching : List String} {t : String}
    (h : firstIn tickers matching = some t) (hne : t ≠ "") :
    matchedTickerStr tickers matching = t := by
  simp [matchedTickerStr, h, hne]

/-- With a non-empty filter list, the keep/skip decision of lines
108-125 keeps an item exactly when `matched_ticker_str` is one of the
requested tickers and differs from the UNKNOWN placeholder. -/
theorem keep_iff {tickers matching : List String} (h : tickers ≠ []) :
    shouldSkip tickers matching (matchedTickerStr tickers matching) = false ↔
      (matchedTickerStr tickers matching ∈ tickers ∧
        matchedTickerStr tickers matching ≠ UNKNOWN_TICKER_PLACEHOLDER) := by
  by_cases hm : matching = []
  · subst hm
    simp [shouldSkip, h, matchedTickerStr_nil]
  · unfold shouldSkip
    by_cases hu : matchedTickerStr tickers matching = UNKNOWN_TICKER_PLACEHOLDER
    · simp [h, hm, hu]
    · by_cases ht : matchedTickerStr tickers matching ∈ tickers
      · simp [h, hm, hu, ht]
      · simp [h, hm, hu, ht]

theorem processEntry_of_skip {entry : JsonVal} {tickers : List String}
    {mapping : List (String × List String)} {fat : Bool}
    (h : shouldSkip tickers (matchingOf mapping entry) (matchedOf tickers mapping entry) = true) :
    processEntry entry tickers mapping fat = Except.ok none := by
  simp [processEntry, h]

theorem processEntry_emitted_not_skip {entry : JsonVal} {tickers : List String}
    {mapping : List (String × List String)} {fat : Bool} {r : ParsedLine}
    (h : processEntry entry tickers mapping fat = Except.ok (some r)) :
    shouldSkip tickers (matchingOf mapping entry) (matchedOf tickers mapping entry) = false := by
  by_cases hs : shouldSkip tickers (matchingOf mapping entry) (matchedOf tickers mapping entry) = true
  · rw [processEntry_of_skip hs] at h
    simp at h
  · simpa using hs

theorem buildParsedLine_ticker {entry cik : JsonVal} {trimmed : Option String}
    {matched : String} {line : ParsedLine}
    (h : buildParsedLine entry cik trimmed matched = Except.ok line) :
    line.ticker = matched := by
  cases entry with
  | obj fs =>
      simp [buildParsedLine] at h
      subst h
      rfl
  | null => simp [buildParsedLine] at h
  | str s => simp [buildParsedLine] at h
  | list xs => simp [buildParsedLine] at h

/-- An emitted record's `ticker` field is `matched_ticker_str`. -/
theorem processEntry_ticker {entry : JsonVal} {tickers : List String}
    {mapping : List (String × List String)} {fat : Bool} {r : ParsedLine}
    (h : processEntry entry tickers mapping fat = Except.ok (some r)) :
    r.ticker = matchedOf tickers mapping entry := by
  have hs := processEntry_emitted_not_skip h
  unfold processEntry at h
  rw [hs] at h
  simp at h
  cases hb : buildParsedLine entry (cikOf entry) (trimmedCikOf entry)
      (matchedOf tickers mapping entry) with
  | error e => rw [hb] at h; simp at h
  | ok line =>
      rw [hb] at h
      cases hx : xbrlFilesField entry fat with
      | error e => rw [hx] at h; simp at h
      | ok xf =>
          rw [hx] at h
          simp at h
          subst h
          simpa using buildParsedLine_ticker hb

theorem parseEntries_order (es : List JsonVal) (tickers : List String)
    (mapping : List (String × List String)) (fat : Bool) :
    List.Sublist (parseEntries es tickers mapping fat).1
        (es.filterMap (emitOf tickers mapping fat))
    ∧ ((parseEntries es tickers mapping fat).2 = none →
        (parseEntries es tickers mapping fat).1 = es.filterMap (emitOf tickers mapping fat)) := by
  induction es with
  | nil => exact ⟨List.Sublist.refl _, fun _ => rfl⟩
  | cons e rest ih =>
      rcases ih with ⟨ih1, ih2⟩
      cases h : processEntry e tickers mapping fat with
      | error er =>
          have he : emitOf tickers mapping fat e = none := by simp [emitOf, h]
          simp only [parseEntries, h, List.filterMap_cons, he]
          exact ⟨List.nil_sublist _, by simp⟩
      | ok o =>
          cases o with
          | none =>
              have he : emitOf tickers mapping fat e = none := by simp [emitOf, h]
              simp only [parseEntries, h, List.filterMap_cons, he]
              exact ⟨ih1, ih2⟩
          | some r =>
              have he : emitOf tickers mapping fat e = some r := by simp [emitOf, h]
              simp only [parseEntries, h, List.filterMap_cons, he]
              exact ⟨List.Sublist.cons₂ r ih1, fun h2 => by rw [ih2 h2]⟩

/-! ## Claim theorems -/

/-- C1 (counterexample): the claimed "if and only if" fails as stated.
With requested tickers `["UNKNOWN"]` and an entry whose CIK resolves
to the single real ticker `"UNKNOWN"`, `matched_ticker_str` is
`"UNKNOWN"`, which is literally one of the caller's requested tickers,
and yet the entry is discarded (the placeholder check at line 116
fires), so no record is emitted. -/
theorem C1_unknown_in_filter_cex :
    matchedOf ["UNKNOWN"] [("1", ["UNKNOWN"])] (itemWithCik "0001") = "UNKNOWN"
    ∧ matchedOf ["UNKNOWN"] [("1", ["UNKNOWN"])] (itemWithCik "0001") ∈ (["UNKNOWN"] : List String)
    ∧ processEntry (itemWithCik "0001") ["UNKNOWN"] [("1", ["UNKNOWN"])] false = Except.ok none :=
  ⟨rfl, by decide, rfl⟩

/-- C1 (amended): with a non-empty filter list, an entry passes the
keep/skip decision (and hence a record can only be emitted for it) if
and only if `matched_ticker_str` is literally one of the caller's
requested tickers AND differs from the UNKNOWN placeholder; in
particular every emitted record's `matched_ticker_str` is one of the
requested tickers. -/
theorem C1_emit_iff_matched_requested (entry : JsonVal) (tickers : List String)
    (mapping : List (String × List String)) (fat : Bool) (h : tickers ≠ []) :
    (∀ r : ParsedLine, processEntry entry tickers mapping fat = Except.ok (some r) →
        matchedOf tickers mapping entry ∈ tickers)
    ∧ (shouldSkip tickers (matchingOf mapping entry) (matchedOf tickers mapping entry) = false ↔
        (matchedOf tickers mapping entry ∈ tickers ∧
          matchedOf tickers mapping entry ≠ UNKNOWN_TICKER_PLACEHOLDER)) := by
  have hiff := @keep_iff tickers (matchingOf mapping entry) h
  exact ⟨fun r hr => (hiff.mp (processEntry_emitted_not_skip hr)).1, hiff⟩

/-- C1 (witness): the amended equivalence at a concrete kept entry. -/
theorem C1_emit_iff_matched_requested_witness :
    shouldSkip ["ZETA"] (matchingOf [("1234567", ["ZETA"])] (itemWithCik "0001234567"))
        (matchedOf ["ZETA"] [("1234567", ["ZETA"])] (itemWithCik "0001234567")) = false ↔
      (matchedOf ["ZETA"] [("1234567", ["ZETA"])] (itemWithCik "0001234567") ∈ (["ZETA"] : List String)
        ∧ matchedOf ["ZETA"] [("1234567", ["ZETA"])] (itemWithCik "0001234567") ≠
            UNKNOWN_TICKER_PLACEHOLDER) :=
  (C1_emit_iff_matched_requested (itemWithCik "0001234567") ["ZETA"]
    [("1234567", ["ZETA"])] false (by decide)).2

/-- C2: a raw feed whose `rss.channel.item` is a single non-sequence
entry is NOT treated as a one-element sequence.  With one item of cik
`"0001234567"`, mapping `{"1234567": ["ZETA"]}` and filter `["ZETA"]`,
the loop iterates over the item dict's keys (strings) and skips each
one, emitting zero records and no error, whereas wrapping the very
same item in a one-element list yields exactly one record with ticker
`"ZETA"` and trimmed_cik `"1234567"`. -/
theorem C2_single_item_shape_bug :
    parse_rss_feed_data (docWithItem (itemWithCik "0001234567")) ["ZETA"]
        [("1234567", ["ZETA"])] false = ([], none)
    ∧ ((parse_rss_feed_data (docWithItem (JsonVal.list [itemWithCik "0001234567"])) ["ZETA"]
          [("1234567", ["ZETA"])] false).1.map (fun r => (r.ticker, r.trimmed_cik)) =
        [("ZETA", some "1234567")]
      ∧ (parse_rss_feed_data (docWithItem (JsonVal.list [itemWithCik "0001234567"])) ["ZETA"]
          [("1234567", ["ZETA"])] false).2 = none) :=
  ⟨rfl, by decide, rfl⟩

/-- C3 (counterexample): the claimed resolution to "the first ticker
in filter-list order that is a member of the matching tickers" fails
when that first member is the empty string.  With filter `[""]` and
matching tickers `["", "X"]`, the first filter-order member is `""`,
but Python's truthiness-based `or` chain drops it and
`matched_ticker_str` becomes the slash-join `"/X"` instead. -/
theorem C3_empty_string_ticker_cex :
    firstIn [""] (matchingOf [("7", ["", "X"])] (itemWithCik "07")) = some ""
    ∧ matchedOf [""] [("7", ["", "X"])] (itemWithCik "07") = "/X"
    ∧ ("/X" : String) ≠ "" :=
  ⟨rfl, rfl, by decide⟩

/-- C3 (amended): whenever the first ticker in filter-list order that
is a member of the entry's matching tickers is a non-empty string,
`matched_ticker_str` is exactly that ticker (first match in
filter-list order, not mapping order), and it belongs to both the
filter list and the matching tickers. -/
theorem C3_first_filter_order_match (tickers matching : List String) (t : String)
    (h1 : firstIn tickers matching = some t) (h2 : t ≠ "") :
    matchedTickerStr tickers matching = t ∧ t ∈ tickers ∧ t ∈ matching :=
  ⟨matchedTickerStr_of_firstIn h1 h2, (firstIn_mem h1).1, (firstIn_mem h1).2⟩

/-- C3 (witness): filter `["AAA","BBB"]` against matching tickers
`["BBB","AAA"]` resolves to `"AAA"`. -/
theorem C3_first_filter_order_match_witness :
    matchedTickerStr ["AAA", "BBB"] ["BBB", "AAA"] = "AAA"
    ∧ "AAA" ∈ (["AAA", "BBB"] : List String) ∧ "AAA" ∈ (["BBB", "AAA"] : List String) :=
  C3_first_filter_order_match ["AAA", "BBB"] ["BBB", "AAA"] "AAA" (by decide) (by decide)

/-- C4: with an empty filter list the filtering logic never discards
an entry (the loop never hits a `continue`), and an entry (a dict)
whose trimmed CIK is absent from the mapping is still emitted, with
ticker equal to the UNKNOWN placeholder. -/
theorem C4_empty_filter_always_kept (entry : JsonVal) (fs : List (String × JsonVal))
    (mapping : List (String × List String)) (fat : Bool)
    (h : matchingOf mapping (JsonVal.obj fs) = []) :
    processEntry entry [] mapping fat ≠ Except.ok none
    ∧ tickerOfResult (processEntry (JsonVal.obj fs) [] mapping false) =
        some UNKNOWN_TICKER_PLACEHOLDER := by
  constructor
  · intro hc
    have hs : shouldSkip [] (matchingOf mapping entry) (matchedOf [] mapping entry) = false := by
      simp [shouldSkip]
    unfold processEntry at hc
    rw [hs] at hc
    simp at hc
    cases hb : buildParsedLine entry (cikOf entry) (trimmedCikOf entry)
        (matchedOf [] mapping entry) with
    | error e => rw [hb] at hc; simp at hc
    | ok line =>
        rw [hb] at hc
        cases hx : xbrlFilesField entry fat with
        | error e => rw [hx] at hc; simp at hc
        | ok xf => rw [hx] at hc; simp at hc
  · have hmt : matchedOf [] mapping (JsonVal.obj fs) = UNKNOWN_TICKER_PLACEHOLDER := by
      unfold matchedOf
      rw [h]
      exact matchedTickerStr_nil []
    simp [processEntry, shouldSkip, buildParsedLine, xbrlFilesField, tickerOfResult, hmt]

/-- C4 (witness): the empty dict entry, with an empty mapping, is kept
and emitted with the UNKNOWN placeholder ticker. -/
theorem C4_empty_filter_always_kept_witness :
    matchingOf [] (JsonVal.obj []) = []
    ∧ (processEntry (JsonVal.obj []) [] [] false ≠ Except.ok none
      ∧ tickerOfResult (processEntry (JsonVal.obj []) [] [] false) =
          some UNKNOWN_TICKER_PLACEHOLDER) :=
  ⟨rfl, C4_empty_filter_always_kept (JsonVal.obj []) [] [] false rfl⟩

/-- C5: with a non-empty filter list, an entry whose trimmed CIK is
absent from the mapping (empty matching-ticker list) is always
discarded with a skip, never emitted and never an error. -/
theorem C5_unmapped_cik_discarded (entry : JsonVal) (tickers : List String)
    (mapping : List (String × List String)) (fat : Bool)
    (h1 : tickers ≠ []) (h2 : matchingOf mapping entry = []) :
    processEntry entry tickers mapping fat = Except.ok none := by
  have hs : shouldSkip tickers (matchingOf mapping entry)
      (matchedOf tickers mapping entry) = true := by
    simp [shouldSkip, h1, h2]
  exact processEntry_of_skip hs

/-- C5 (witness): a concrete unmapped entry under filter `["ZETA"]`
is skipped. -/
theorem C5_unmapped_cik_discarded_witness :
    matchingOf [] (itemWithCik "0001") = []
    ∧ processEntry (itemWithCik "0001") ["ZETA"] [] false = Except.ok none :=
  ⟨rfl, C5_unmapped_cik_discarded (itemWithCik "0001") ["ZETA"] [] false (by decide) rfl⟩

/-- C6: when an entry's cik is a string, trimmed_cik is cik with all
leading `'0'` characters removed: `"0000320193"` trims to `"320193"`
and `"0000000000"` trims to `""`; the mapping lookup uses only
trimmed_cik, and when the mapping has no `""` key an all-zero cik
matches nothing. -/
theorem C6_trimmed_cik_lstrip (entry : JsonVal) (s : String)
    (mapping : List (String × List String))
    (h : cikOf entry = JsonVal.str s) (hm : dictGet mapping "" = none) :
    trimmedCikOf entry = some (lstripZeros s)
    ∧ lstripZeros "0000320193" = "320193"
    ∧ lstripZeros "0000000000" = ""
    ∧ (lstripZeros s = "" → matchingOf mapping entry = []) := by
  refine ⟨by simp [trimmedCikOf, h], by decide, by decide, fun hz => ?_⟩
  simp [matchingOf, matchingTickers, trimmedCikOf, h, hz, hm]

/-- C6 (witness): the all-zero cik trims to the empty string and
matches nothing in a mapping without a `""` key. -/
theorem C6_trimmed_cik_lstrip_witness :
    cikOf (itemWithCik "0000000000") = JsonVal.str "0000000000"
    ∧ trimmedCikOf (itemWithCik "0000000000") = some ""
    ∧ matchingOf [("320193", ["AAPL"])] (itemWithCik "0000000000") = [] := by
  have h := C6_trimmed_cik_lstrip (itemWithCik "0000000000") "0000000000"
    [("320193", ["AAPL"])] rfl rfl
  exact ⟨rfl, h.1.trans (by decide), h.2.2.2 (by decide)⟩

theorem urlsOf_map (urls : List String) :
    urlsOf (urls.map mkXbrlFile) = Except.ok (urls.map JsonVal.str) := by
  induction urls with
  | nil => rfl
  | cons u us ih => simp [urlsOf, mkXbrlFile, pyGet, dictGet, ih]

theorem allStrings_map (urls : List String) :
    allStrings (urls.map JsonVal.str) = some urls := by
  induction urls with
  | nil => rfl
  | cons u us ih => simp [allStrings, ih]

theorem unpackSingletonList_cons_cons (x y : JsonVal) (zs : List JsonVal) :
    unpackSingletonList (x :: y :: zs) =
      match allStrings (x :: y :: zs) with
      | some ss => Except.ok (JsonVal.str (String.intercalate "\n" ss))
      | none => Except.error PyErr.typeError := rfl

theorem xbrlFilesField_list (c : String) (descs : List JsonVal) :
    xbrlFilesField (itemWithFiles c descs) true =
      match urlsOf descs with
      | Except.error e => Except.error e
      | Except.ok urls => unpackSingletonList urls := rfl

/-- C7: when `files_urls_as_text` is set, the `xbrl_files` value is
the file-descriptor list transformed to URL strings: a single URL
collapses to that literal string (not a one-element list), and two or
more URLs produce the newline-joined string in original order. -/
theorem C7_files_urls_as_text (c u : String) (urls : List String)
    (h : 2 ≤ urls.length) :
    xbrlFilesField (itemWithFiles c [mkXbrlFile u]) true = Except.ok (JsonVal.str u)
    ∧ xbrlFilesField (itemWithFiles c (urls.map mkXbrlFile)) true =
        Except.ok (JsonVal.str (String.intercalate "\n" urls)) := by
  constructor
  · rfl
  · obtain ⟨a, b, rest, rfl⟩ : ∃ a b rest, urls = a :: b :: rest := by
      cases urls with
      | nil => simp at h
      | cons a t =>
          cases t with
          | nil => simp at h
          | cons b r => exact ⟨a, b, r, rfl⟩
    rw [xbrlFilesField_list, urlsOf_map]
    have ha := allStrings_map (a :: b :: rest)
    simp only [List.map_cons] at ha ⊢
    rw [unpackSingletonList_cons_cons, ha]

/-- C7 (witness): one URL `"http://x/doc.xml"` collapses to that
string; URLs `["url1","url2"]` join to `"url1\nurl2"`. -/
theorem C7_files_urls_as_text_witness :
    xbrlFilesField (itemWithFiles "9" [mkXbrlFile "http://x/doc.xml"]) true =
        Except.ok (JsonVal.str "http://x/doc.xml")
    ∧ xbrlFilesField (itemWithFiles "9" (["url1", "url2"].map mkXbrlFile)) true =
        Except.ok (JsonVal.str (String.intercalate "\n" ["url1", "url2"])) :=
  C7_files_urls_as_text "9" "http://x/doc.xml" ["url1", "url2"] (by decide)

/-- C8: record construction is NOT failure-free.  A concrete entry
that passes filtering but lacks the nested
`edgar:xbrlFiling → edgar:xbrlFiles → edgar:xbrlFile` path raises a
`TypeError` when `files_urls_as_text` is set (the safe lookup yields
null and the list comprehension iterates over it), aborting the entry
and the whole generator; with `files_urls_as_text` unset the very same
entry is emitted. -/
theorem C8_missing_files_crash :
    processEntry (itemWithCik "0001234567") ["ZETA"] [("1234567", ["ZETA"])] true =
        Except.error PyErr.typeError
    ∧ isEmitted (processEntry (itemWithCik "0001234567") ["ZETA"]
        [("1234567", ["ZETA"])] false) = true :=
  ⟨rfl, rfl⟩

/-- C9: the emitted records preserve source order: the output list is
an order-preserving subsequence (`List.Sublist`) of the per-entry
results in feed order, and when the pass completes without error it is
exactly the in-order list of the kept entries' records. -/
theorem C9_order_preserved (doc : JsonVal) (tickers : List String)
    (mapping : List (String × List String)) (fat : Bool) :
    List.Sublist (parse_rss_feed_data doc tickers mapping fat).1
        ((entriesOf doc).filterMap (emitOf tickers mapping fat))
    ∧ ((parse_rss_feed_data doc tickers mapping fat).2 = none →
        (parse_rss_feed_data doc tickers mapping fat).1 =
          (entriesOf doc).filterMap (emitOf tickers mapping fat)) := by
  unfold parse_rss_feed_data entriesOf
  cases h : itemsResult doc with
  | error e => simp
  | ok es => simpa using parseEntries_order es tickers mapping fat

/-- C9 (witness): a two-item feed with no filtering finishes without
error and emits exactly the in-order records of its entries. -/
theorem C9_order_preserved_witness :
    (parse_rss_feed_data (docWithItem (JsonVal.list [itemWithCik "01", itemWithCik "02"]))
        [] [] false).1 =
      (entriesOf (docWithItem (JsonVal.list [itemWithCik "01", itemWithCik "02"]))).filterMap
        (emitOf [] [] false) :=
  (C9_order_preserved (docWithItem (JsonVal.list [itemWithCik "01", itemWithCik "02"]))
    [] [] false).2 rfl

/-- C10: when the filter list contains the literal string `"UNKNOWN"`
and an entry's matching-ticker list is exactly `["UNKNOWN"]` (a real
ticker textually equal to the sentinel), the entry is still discarded:
the placeholder-equality check (line 116) fires before the membership
check (line 121), so such a ticker can never be filtered in. -/
theorem C10_unknown_ticker_never_matched (entry : JsonVal) (tickers : List String)
    (mapping : List (String × List String)) (fat : Bool)
    (h1 : UNKNOWN_TICKER_PLACEHOLDER ∈ tickers)
    (h2 : matchingOf mapping entry = [UNKNOWN_TICKER_PLACEHOLDER]) :
    processEntry entry tickers mapping fat = Except.ok none := by
  have hne : tickers ≠ [] := by
    intro hnil
    rw [hnil] at h1
    cases h1
  have hm : matchedOf tickers mapping entry = UNKNOWN_TICKER_PLACEHOLDER := by
    unfold matchedOf
    rw [h2]
    exact matchedTickerStr_of_firstIn (firstIn_singleton_of_mem h1) (by decide)
  have hs : shouldSkip tickers (matchingOf mapping entry)
      (matchedOf tickers mapping entry) = true := by
    simp [shouldSkip, hne, h2, hm]
  exact processEntry_of_skip hs

/-- C10 (witness): filter `["UNKNOWN"]` against a real `"UNKNOWN"`
ticker is discarded. -/
theorem C10_unknown_ticker_never_matched_witness :
    UNKNOWN_TICKER_PLACEHOLDER ∈ (["UNKNOWN"] : List String)
    ∧ matchingOf [("9", ["UNKNOWN"])] (itemWithCik "09") = [UNKNOWN_TICKER_PLACEHOLDER]
    ∧ processEntry (itemWithCik "09") ["UNKNOWN"] [("9", ["UNKNOWN"])] true = Except.ok none :=
  ⟨by decide, rfl,
    C10_unknown_ticker_never_matched (itemWithCik "09") ["UNKNOWN"] [("9", ["UNKNOWN"])] true
      (by decide) rfl⟩

end EdgarRss

